import Mathlib

/-!
Verification of the thread-safe collection core of ptlib
(`src/include/ptlib/safecoll.h`).

The header declares the `PSafeObject` / `PSafeCollection` / `PSafePtr`
protocol and contains the inline bodies of the typed facades
(`PSafeList`, `PSafeDictionary`) and of the `PSafePtr` traversal
operators.  The out-of-line method bodies (`safecoll.cxx`) are not part
of the repository snapshot, so those operations are modelled from the
design specification; every such definition carries a doc comment
starting with `Modelled from the spec:`.  The model is sequential: each
operation is a function on an explicit state, and a blocking lock
acquisition that would wait for another holder is represented by the
result `none` (the call does not return in a quiescent state).
-/

/-- The lock-strength enumeration from safecoll.h lines 331-335:
`enum PSafetyMode { PSafeReference, PSafeReadOnly, PSafeReadWrite }`. -/
inductive PSafetyMode
  | PSafeReference
  | PSafeReadOnly
  | PSafeReadWrite
deriving DecidableEq, Repr

/-- State of one `PSafeObject` (safecoll.h lines 223-228).  The fields
`safeReferenceCount` and `safelyBeingRemoved` are named as in the
source; the `PReadWriteMutex safeInUseFlag` is modelled by the count of
shared holders and the exclusive-holder flag.  The `PMutex safetyMutex`
guard serializes access to the two scalars; in this sequential model
every operation is atomic, so the guard is implicit. -/
structure PSafeObjectState where
  safeReferenceCount : Nat
  safelyBeingRemoved : Bool
  safeInUseReaders : Nat
  safeInUseWriter : Bool
deriving DecidableEq, Repr

/-- Modelled from the spec: `PSafeObject::PSafeObject()` (body missing from
src).  Lifecycle, spec section 3: created unowned with `ref_count = 0`,
`removed = false`, and no lock holders. -/
def PSafeObjectState.initial : PSafeObjectState :=
  { safeReferenceCount := 0
    safelyBeingRemoved := false
    safeInUseReaders := 0
    safeInUseWriter := false }

/-- Modelled from the spec: `PSafeObject::SafeReference` (body missing from
src; declared safecoll.h line 129).  Spec section 4.1: takes the guard; if
`removed`, fails; otherwise increments `ref_count` and succeeds.  The
returned `Bool` is the `BOOL` return value of the source function. -/
def PSafeObject.SafeReference (s : PSafeObjectState) : Bool × PSafeObjectState :=
  if s.safelyBeingRemoved then
    (false, s)
  else
    (true, { s with safeReferenceCount := s.safeReferenceCount + 1 })

/-- Modelled from the spec: `PSafeObject::SafeDereference` (body missing
from src; declared safecoll.h line 138).  Spec section 4.1: takes the
guard; decrements `ref_count` (must be positive); never fails. -/
def PSafeObject.SafeDereference (s : PSafeObjectState) : PSafeObjectState :=
  { s with safeReferenceCount := s.safeReferenceCount - 1 }

/-- Modelled from the spec: `PSafeObject::LockReadOnly` (body missing from
src; declared safecoll.h line 157).  Spec section 4.1 AcquireRead: if
`removed`, fails returning FALSE; otherwise requests the shared lock,
waiting while a writer holds it (result `none`: the call blocks in this
quiescent model); once granted, succeeds. -/
def PSafeObject.LockReadOnly (s : PSafeObjectState) : Option (Bool × PSafeObjectState) :=
  if s.safelyBeingRemoved then
    some (false, s)
  else if s.safeInUseWriter then
    none
  else
    some (true, { s with safeInUseReaders := s.safeInUseReaders + 1 })

/-- Modelled from the spec: `PSafeObject::UnlockReadOnly` (body missing
from src; declared safecoll.h line 169).  Drops one shared holder. -/
def PSafeObject.UnlockReadOnly (s : PSafeObjectState) : PSafeObjectState :=
  { s with safeInUseReaders := s.safeInUseReaders - 1 }

/-- Modelled from the spec: `PSafeObject::LockReadWrite` (body missing from
src; declared safecoll.h line 188).  Spec section 4.1 AcquireWrite: if
`removed`, fails returning FALSE; otherwise requests the exclusive lock,
waiting while any reader or writer holds it (result `none`); once
granted, succeeds. -/
def PSafeObject.LockReadWrite (s : PSafeObjectState) : Option (Bool × PSafeObjectState) :=
  if s.safelyBeingRemoved then
    some (false, s)
  else if s.safeInUseWriter || s.safeInUseReaders != 0 then
    none
  else
    some (true, { s with safeInUseWriter := true })

/-- Modelled from the spec: `PSafeObject::UnlockReadWrite` (body missing
from src; declared safecoll.h line 200).  Drops the exclusive holder. -/
def PSafeObject.UnlockReadWrite (s : PSafeObjectState) : PSafeObjectState :=
  { s with safeInUseWriter := false }

/-- Modelled from the spec: `PSafeObject::SafeRemove` (body missing from
src; declared safecoll.h line 211).  Spec section 4.1 MarkRemoved: takes
the guard; sets `removed = true`; releases the guard.  Does not wait for
any lock and touches nothing else. -/
def PSafeObject.SafeRemove (s : PSafeObjectState) : PSafeObjectState :=
  { s with safelyBeingRemoved := true }

/-- Modelled from the spec: `PSafeObject::SafelyCanBeDeleted` (body
missing from src; declared safecoll.h line 220).  Spec section 4.1
IsDeletable: takes the guard; returns `removed AND ref_count == 0`. -/
def PSafeObject.SafelyCanBeDeleted (s : PSafeObjectState) : Bool :=
  s.safelyBeingRemoved && s.safeReferenceCount == 0

/-- Modelled from the spec: the momentary fail-fast exclusive acquire by
which a caller of `SafelyCanBeDeleted` confirms that no reader or writer
holds the lock (spec section 4.1 IsDeletable).  Succeeds exactly when the
exclusive lock is immediately grantable. -/
def PSafeObject.tryLockReadWrite (s : PSafeObjectState) : Bool :=
  !s.safeInUseWriter && s.safeInUseReaders == 0

/-- The public operation alphabet of `PSafeObject` (safecoll.h
lines 129-220). -/
inductive SafeOp
  | reference
  | dereference
  | lockReadOnly
  | unlockReadOnly
  | lockReadWrite
  | unlockReadWrite
  | safeRemove
deriving DecidableEq, Repr

/-- The object state after an operation of the alphabet returns.  For the
fallible or blocking operations this is the state component of the
result; a blocked acquire leaves the state as it was. -/
def PSafeObject.applyOp : SafeOp → PSafeObjectState → PSafeObjectState
  | .reference, s => (PSafeObject.SafeReference s).2
  | .dereference, s => PSafeObject.SafeDereference s
  | .lockReadOnly, s =>
      match PSafeObject.LockReadOnly s with
      | some (_, s2) => s2
      | none => s
  | .unlockReadOnly, s => PSafeObject.UnlockReadOnly s
  | .lockReadWrite, s =>
      match PSafeObject.LockReadWrite s with
      | some (_, s2) => s2
      | none => s
  | .unlockReadWrite, s => PSafeObject.UnlockReadWrite s
  | .safeRemove, s => PSafeObject.SafeRemove s

/-- The three acquire outcomes named by the specification (section 4.5):
success, `ObjectRemoved`, `WouldDeadlock`. -/
inductive AcquireOutcome
  | success
  | objectRemoved
  | wouldDeadlock
deriving DecidableEq, Repr

/-- Return type of the acquire-class operations as declared in the
source: `BOOL SafeReference();` (safecoll.h line 129),
`BOOL LockReadOnly();` (line 157), `BOOL LockReadWrite();` (line 188).
`BOOL` is a two-valued boolean. -/
abbrev SafeReferenceReturnType : Type := Bool

/-- A tombstoned object with no references and no lock holders. -/
def removedObj : PSafeObjectState :=
  { safeReferenceCount := 0
    safelyBeingRemoved := true
    safeInUseReaders := 0
    safeInUseWriter := false }

/-- The object state after a successful `SafeReference` on a fresh
object: one reference, live, unlocked. -/
def referencedObj : PSafeObjectState :=
  { safeReferenceCount := 1
    safelyBeingRemoved := false
    safeInUseReaders := 0
    safeInUseWriter := false }

/-- Claim C1, counterexample: the acquire-class operations return the
two-valued `BOOL` (safecoll.h lines 129, 157, 188), and no encoding of
the three outcomes success / ObjectRemoved / WouldDeadlock into that
return type is injective, so a caller cannot tell ObjectRemoved and
WouldDeadlock apart from the return value as the claim states. -/
theorem C1_counterexample :
    ¬ ∃ enc : AcquireOutcome → SafeReferenceReturnType, Function.Injective enc := by
  rintro ⟨enc, hinj⟩
  rcases Bool.eq_false_or_eq_true (enc .success) with hs | hs <;>
    rcases Bool.eq_false_or_eq_true (enc .objectRemoved) with ho | ho <;>
      rcases Bool.eq_false_or_eq_true (enc .wouldDeadlock) with hw | hw
  · exact AcquireOutcome.noConfusion (hinj (hs.trans ho.symm))
  · exact AcquireOutcome.noConfusion (hinj (hs.trans ho.symm))
  · exact AcquireOutcome.noConfusion (hinj (hs.trans hw.symm))
  · exact AcquireOutcome.noConfusion (hinj (ho.trans hw.symm))
  · exact AcquireOutcome.noConfusion (hinj (ho.trans hw.symm))
  · exact AcquireOutcome.noConfusion (hinj (hs.trans hw.symm))
  · exact AcquireOutcome.noConfusion (hinj (hs.trans ho.symm))
  · exact AcquireOutcome.noConfusion (hinj (hs.trans ho.symm))

/-- Claim C1 (amended): each acquire-class operation returns a two-state
`BOOL`: TRUE for success and FALSE exactly when the object is tombstoned
(`ObjectRemoved`); no separate `WouldDeadlock` outcome is
distinguishable. -/
theorem C1_bool_outcome (s : PSafeObjectState) :
    ((PSafeObject.SafeReference s).1 = false ↔ s.safelyBeingRemoved = true)
    ∧ (∀ b s2, PSafeObject.LockReadOnly s = some (b, s2) →
        (b = false ↔ s.safelyBeingRemoved = true))
    ∧ (∀ b s2, PSafeObject.LockReadWrite s = some (b, s2) →
        (b = false ↔ s.safelyBeingRemoved = true)) := by
  obtain ⟨n, r, rd, w⟩ := s
  refine ⟨?_, ?_, ?_⟩
  · cases r <;> simp [PSafeObject.SafeReference]
  · intro b s2 hb
    cases r
    · cases w
      · simp [PSafeObject.LockReadOnly] at hb
        obtain ⟨hb1, hb2⟩ := hb
        subst hb1
        simp
      · simp [PSafeObject.LockReadOnly] at hb
    · simp [PSafeObject.LockReadOnly] at hb
      obtain ⟨hb1, hb2⟩ := hb
      subst hb1
      simp
  · intro b s2 hb
    cases r
    · by_cases hrd : rd = 0
      · cases w
        · simp [PSafeObject.LockReadWrite, hrd] at hb
          obtain ⟨hb1, hb2⟩ := hb
          subst hb1
          simp
        · simp [PSafeObject.LockReadWrite] at hb
      · cases w <;> simp [PSafeObject.LockReadWrite, hrd] at hb
    · simp [PSafeObject.LockReadWrite] at hb
      obtain ⟨hb1, hb2⟩ := hb
      subst hb1
      simp

/-- Witness for C1_bool_outcome at the concrete tombstoned object. -/
theorem C1_bool_outcome_witness :
    (PSafeObject.LockReadWrite removedObj = some (false, removedObj))
    ∧ (false = false ↔ removedObj.safelyBeingRemoved = true) :=
  ⟨by decide, (C1_bool_outcome removedObj).2.2 false removedObj (by decide)⟩

/-- Claim C4: once the removed flag is true it never reverts (no
operation of the alphabet clears it), and any subsequent SafeReference,
LockReadOnly or LockReadWrite returns failure while leaving the state —
in particular the reference count and the lock holders, which stand for
references and locks already held — untouched. -/
theorem C4_tombstone (s : PSafeObjectState) (op : SafeOp)
    (h : s.safelyBeingRemoved = true) :
    (PSafeObject.applyOp op s).safelyBeingRemoved = true
    ∧ PSafeObject.SafeReference s = (false, s)
    ∧ PSafeObject.LockReadOnly s = some (false, s)
    ∧ PSafeObject.LockReadWrite s = some (false, s) := by
  refine ⟨?_, ?_, ?_, ?_⟩
  · cases op <;>
      simp [PSafeObject.applyOp, PSafeObject.SafeReference, PSafeObject.SafeDereference,
        PSafeObject.LockReadOnly, PSafeObject.UnlockReadOnly, PSafeObject.LockReadWrite,
        PSafeObject.UnlockReadWrite, PSafeObject.SafeRemove, h]
  · simp [PSafeObject.SafeReference, h]
  · simp [PSafeObject.LockReadOnly, h]
  · simp [PSafeObject.LockReadWrite, h]

/-- Witness for C4_tombstone at the concrete tombstoned object and the
unlock-read-write operation. -/
theorem C4_tombstone_witness :
    (PSafeObject.applyOp SafeOp.unlockReadWrite removedObj).safelyBeingRemoved = true
    ∧ PSafeObject.SafeReference removedObj = (false, removedObj)
    ∧ PSafeObject.LockReadOnly removedObj = some (false, removedObj)
    ∧ PSafeObject.LockReadWrite removedObj = some (false, removedObj) :=
  C4_tombstone removedObj SafeOp.unlockReadWrite rfl

/-- Claim C5: `SafelyCanBeDeleted` returns true exactly when the removed
flag is set and the reference count is zero, and the momentary fail-fast
exclusive acquire by which the caller confirms the no-lock-holder
condition succeeds exactly when no reader or writer holds the lock. -/
theorem C5_deletable (s : PSafeObjectState) :
    (PSafeObject.SafelyCanBeDeleted s = true ↔
      (s.safelyBeingRemoved = true ∧ s.safeReferenceCount = 0))
    ∧ (PSafeObject.tryLockReadWrite s = true ↔
      (s.safeInUseReaders = 0 ∧ s.safeInUseWriter = false)) := by
  constructor
  · simp [PSafeObject.SafelyCanBeDeleted]
  · simp [PSafeObject.tryLockReadWrite, and_comm]

/-- Claim C6: when `SafeReference` succeeds, following it with
`SafeDereference` leaves the reference count at its value before the
pair. -/
theorem C6_reference_dereference (s s2 : PSafeObjectState)
    (h : PSafeObject.SafeReference s = (true, s2)) :
    (PSafeObject.SafeDereference s2).safeReferenceCount = s.safeReferenceCount := by
  unfold PSafeObject.SafeReference at h
  by_cases hr : s.safelyBeingRemoved
  · simp [hr] at h
  · simp [hr] at h
    subst h
    simp [PSafeObject.SafeDereference]

/-- Witness for C6_reference_dereference at the concrete fresh object. -/
theorem C6_reference_dereference_witness :
    (PSafeObject.SafeDereference referencedObj).safeReferenceCount =
      PSafeObjectState.initial.safeReferenceCount :=
  C6_reference_dereference PSafeObjectState.initial referencedObj (by decide)

/-- Claim C7: `SafeRemove` (MarkRemoved) is idempotent — applying it
twice gives the same state as applying it once — and it sets the removed
flag while leaving the reference count and both lock-holder fields
untouched (it waits for no lock). -/
theorem C7_markremoved_idempotent (s : PSafeObjectState) :
    PSafeObject.SafeRemove (PSafeObject.SafeRemove s) = PSafeObject.SafeRemove s
    ∧ (PSafeObject.SafeRemove s).safelyBeingRemoved = true
    ∧ (PSafeObject.SafeRemove s).safeReferenceCount = s.safeReferenceCount
    ∧ (PSafeObject.SafeRemove s).safeInUseReaders = s.safeInUseReaders
    ∧ (PSafeObject.SafeRemove s).safeInUseWriter = s.safeInUseWriter := by
  refine ⟨rfl, rfl, rfl, rfl, rfl⟩

/-- Pointwise update of the id-indexed map of object states. -/
def updateObj (objs : Nat → PSafeObjectState) (i : Nat) (v : PSafeObjectState) :
    Nat → PSafeObjectState :=
  fun j => if j = i then v else objs j

/-- State of a `PSafeCollection` whose underlying container is an ordered
sequence (the `PSafeList` facade).  `items` is the live container,
`toBeRemoved` the pending-deletion list (field names from safecoll.h
lines 322-323); objects are named by ids and their protocol state is kept
in `objs`.  The `collectionMutex` serializes structural edits; in this
sequential model each operation below is one critical section. -/
structure ListCollState where
  items : List Nat
  toBeRemoved : List Nat
  objs : Nat → PSafeObjectState

/-- State of a `PSafePtrBase` handle: the target (`currentObject`) and the
lock strength (`lockMode`), field names from safecoll.h lines 455-456. -/
structure PSafePtrState where
  currentObject : Option Nat
  lockMode : PSafetyMode
deriving DecidableEq, Repr

/-- Modelled from the spec: `PSafePtrBase::EnterSafetyMode` with the
`WithReference` option (declared safecoll.h line 444; body missing from
src).  Spec section 4.3: first `SafeReference` the target — on failure the
handle is left empty; then acquire the lock matching the mode — on lock
failure roll the reference back and leave the handle empty.  Result:
`none` when the lock acquisition blocks; `some (false, objs)` when the
entry failed; `some (true, objs)` on success. -/
def enterSafetyModeObjs (objs : Nat → PSafeObjectState) (i : Nat) (mode : PSafetyMode) :
    Option (Bool × (Nat → PSafeObjectState)) :=
  match PSafeObject.SafeReference (objs i) with
  | (false, _) => some (false, objs)
  | (true, s1) =>
      match mode with
      | .PSafeReference => some (true, updateObj objs i s1)
      | .PSafeReadOnly =>
          match PSafeObject.LockReadOnly s1 with
          | none => none
          | some (false, s2) => some (false, updateObj objs i (PSafeObject.SafeDereference s2))
          | some (true, s2) => some (true, updateObj objs i s2)
      | .PSafeReadWrite =>
          match PSafeObject.LockReadWrite s1 with
          | none => none
          | some (false, s2) => some (false, updateObj objs i (PSafeObject.SafeDereference s2))
          | some (true, s2) => some (true, updateObj objs i s2)

/-- Modelled from the spec: `PSafePtrBase::ExitSafetyMode` with the
`WithDereference` option (declared safecoll.h line 450; body missing from
src).  Releases the lock matching the mode, then dereferences. -/
def exitSafetyModeObjs (objs : Nat → PSafeObjectState) (i : Nat) (mode : PSafetyMode) :
    Nat → PSafeObjectState :=
  let s := objs i
  let s1 :=
    match mode with
    | PSafetyMode.PSafeReference => s
    | PSafetyMode.PSafeReadOnly => PSafeObject.UnlockReadOnly s
    | PSafetyMode.PSafeReadWrite => PSafeObject.UnlockReadWrite s
  updateObj objs i (PSafeObject.SafeDereference s1)

/-- Binding a handle to an optional target: no target gives the NULL
handle; otherwise the target is entered in the given mode, an entry
failure again giving the NULL handle. -/
def enterOnTarget (objs : Nat → PSafeObjectState) (target : Option Nat) (mode : PSafetyMode) :
    Option (PSafePtrState × (Nat → PSafeObjectState)) :=
  match target with
  | none => some ({ currentObject := none, lockMode := mode }, objs)
  | some i =>
      match enterSafetyModeObjs objs i mode with
      | none => none
      | some (false, objs2) => some ({ currentObject := none, lockMode := mode }, objs2)
      | some (true, objs2) => some ({ currentObject := some i, lockMode := mode }, objs2)

/-- Modelled from the spec: the `PSafePtrBase` constructor from a
collection, mode and index (declared safecoll.h lines 378-382; body
missing from src).  Header doc lines 375-376: if the index is beyond the
size of the collection, the pointer is NULL.  Otherwise the indexed
object is referenced and locked per the mode. -/
def PSafePtrBase.mkFromIndex (st : ListCollState) (mode : PSafetyMode) (idx : Nat) :
    Option (PSafePtrState × ListCollState) :=
  (enterOnTarget st.objs st.items[idx]? mode).map
    (fun r => (r.1, { st with objs := r.2 }))

/-- Modelled from the spec: `PSafeCollection::SafeRemoveAt` (declared
safecoll.h lines 293-295; body missing from src).  Spec section 4.2
InternalRemoveAt: under the collection mutex, an out-of-range index
returns null; otherwise the object is removed from `items`, marked
removed, and moved to the pending-deletion list, and is returned. -/
def PSafeCollection.SafeRemoveAt (st : ListCollState) (idx : Nat) :
    Option Nat × ListCollState :=
  match st.items[idx]? with
  | none => (none, st)
  | some i =>
      (some i,
        { items := st.items.eraseIdx idx
          toBeRemoved := st.toBeRemoved ++ [i]
          objs := updateObj st.objs i (PSafeObject.SafeRemove (st.objs i)) })

/-- `PSafeList::GetWithLock` (safecoll.h lines 703-708): constructs
`PSafePtr<Base>(*this, mode, idx)`. -/
def PSafeList.GetWithLock (st : ListCollState) (idx : Nat) (mode : PSafetyMode) :
    Option (PSafePtrState × ListCollState) :=
  PSafePtrBase.mkFromIndex st mode idx

/-- Default value of the omitted mode argument of `PSafeList::GetWithLock`
(safecoll.h line 705: `PSafetyMode mode = PSafeReadWrite`). -/
def PSafeList.GetWithLockDefaultMode : PSafetyMode := PSafetyMode.PSafeReadWrite

/-- `PSafeList::FindWithLock` (safecoll.h lines 715-721): under the
collection mutex, looks up the value index (`GetValuesIndex`, first
container index holding the value, out of range when absent) and
constructs `PSafePtr<Base>(*this, mode, idx)`.  The mutex ordering of the
body is recorded separately in `PSafeList.findWithLockEvents`. -/
def PSafeList.FindWithLock (st : ListCollState) (value : Nat) (mode : PSafetyMode) :
    Option (PSafePtrState × ListCollState) :=
  PSafePtrBase.mkFromIndex st mode (st.items.indexOf value)

/-- Default value of the omitted mode argument of `PSafeList::FindWithLock`
(safecoll.h line 717). -/
def PSafeList.FindWithLockDefaultMode : PSafetyMode := PSafetyMode.PSafeReadWrite

/-- Default value of the omitted mode argument of the `PSafePtr`
constructor from a collection (safecoll.h line 505:
`PSafetyMode mode = PSafeReadWrite`). -/
def PSafePtr.collectionCtorDefaultMode : PSafetyMode := PSafetyMode.PSafeReadWrite

/-- State of a `PSafeCollection` whose underlying container is a keyed
dictionary (the `PSafeDictionary` facade): key-to-id bindings, the
pending-deletion list, and the per-id object states. -/
structure DictCollState (κ : Type) where
  entries : List (κ × Nat)
  toBeRemoved : List Nat
  objs : Nat → PSafeObjectState

/-- The underlying dictionary's `GetAt` (an out-of-scope collaborator,
spec section 1: the keyed container is treated as an opaque mapping):
the id bound to the key, if any. -/
def DictCollState.GetAt [DecidableEq κ] (st : DictCollState κ) (k : κ) : Option Nat :=
  (st.entries.find? (fun e => e.1 == k)).map (fun e => e.2)

/-- Modelled from the spec: `PSafeCollection::SafeRemove` at the
dictionary instantiation (declared safecoll.h lines 281-283; body missing
from src).  Spec section 4.2 InternalRemove: under the collection mutex,
NULL or a value not in the container returns false; otherwise the
value's bindings are removed from the container and the object is marked
removed and moved to the pending-deletion list. -/
def DictCollState.SafeRemove [DecidableEq κ] (st : DictCollState κ) (o : Option Nat) :
    Bool × DictCollState κ :=
  match o with
  | none => (false, st)
  | some i =>
      if st.entries.any (fun e => e.2 == i) then
        (true,
          { entries := st.entries.filter (fun e => !(e.2 == i))
            toBeRemoved := st.toBeRemoved ++ [i]
            objs := updateObj st.objs i (PSafeObject.SafeRemove (st.objs i)) })
      else (false, st)

/-- The underlying dictionary's `SetAt` (out-of-scope collaborator):
stores the binding, replacing any previous binding of the key.  It knows
nothing of safe references. -/
def DictCollState.containerSetAt [DecidableEq κ] (st : DictCollState κ) (k : κ) (i : Nat) :
    DictCollState κ :=
  { st with entries := (k, i) :: st.entries.filter (fun e => !(e.1 == k)) }

/-- `PSafeDictionary::SetAt` (safecoll.h lines 754-760): under the
collection mutex, `SafeRemove(GetAt(key))` tombstones any object
previously at the key, then the container-level `SetAt` stores the new
object.  The source body calls no `SafeReference` on the stored object. -/
def PSafeDictionary.SetAt [DecidableEq κ] (st : DictCollState κ) (key : κ) (objId : Nat) :
    DictCollState κ :=
  DictCollState.containerSetAt
    (DictCollState.SafeRemove st (DictCollState.GetAt st key)).2 key objId

/-- `PSafeDictionary::RemoveAt` (safecoll.h lines 770-775): under the
collection mutex, `SafeRemove(GetAt(key))`. -/
def PSafeDictionary.RemoveAt [DecidableEq κ] (st : DictCollState κ) (key : κ) :
    Bool × DictCollState κ :=
  DictCollState.SafeRemove st (DictCollState.GetAt st key)

/-- The values of the dictionary in container enumeration order. -/
def DictCollState.valuesList (st : DictCollState κ) : List Nat :=
  st.entries.map (fun e => e.2)

/-- Modelled from the spec: the `PSafePtrBase` constructor from a
collection, mode and object (declared safecoll.h lines 391-395; body
missing from src).  Header doc lines 388-389: the target is only set if
it is contained in the collection, otherwise the pointer is NULL. -/
def DictCollState.mkFromObject [DecidableEq κ] (st : DictCollState κ) (mode : PSafetyMode)
    (o : Option Nat) : Option (PSafePtrState × DictCollState κ) :=
  match o with
  | none => some ({ currentObject := none, lockMode := mode }, st)
  | some i =>
      if st.entries.any (fun e => e.2 == i) then
        (enterOnTarget st.objs (some i) mode).map (fun r => (r.1, { st with objs := r.2 }))
      else some ({ currentObject := none, lockMode := mode }, st)

/-- `PSafeDictionary::GetWithLock` (safecoll.h lines 782-787): constructs
`PSafePtr<Base>(*this, mode, idx)`, the index taken in container
enumeration order. -/
def PSafeDictionary.GetWithLock [DecidableEq κ] (st : DictCollState κ) (idx : Nat)
    (mode : PSafetyMode) : Option (PSafePtrState × DictCollState κ) :=
  (enterOnTarget st.objs (DictCollState.valuesList st)[idx]? mode).map
    (fun r => (r.1, { st with objs := r.2 }))

/-- Default value of the omitted mode argument of
`PSafeDictionary::GetWithLock` (safecoll.h line 784). -/
def PSafeDictionary.GetWithLockDefaultMode : PSafetyMode := PSafetyMode.PSafeReadWrite

/-- `PSafeDictionary::FindWithLock` (safecoll.h lines 794-800): under the
collection mutex, `PSafePtr<Base>(*this, mode, GetAt(key))`.  The mutex
ordering of the body is recorded in `PSafeDictionary.findWithLockEvents`. -/
def PSafeDictionary.FindWithLock [DecidableEq κ] (st : DictCollState κ) (key : κ)
    (mode : PSafetyMode) : Option (PSafePtrState × DictCollState κ) :=
  DictCollState.mkFromObject st mode (DictCollState.GetAt st key)

/-- Default value of the omitted mode argument of
`PSafeDictionary::FindWithLock` (safecoll.h line 796). -/
def PSafeDictionary.FindWithLockDefaultMode : PSafetyMode := PSafetyMode.PSafeReadWrite

/-- Modelled from the spec: the skip step of traversal (spec section 4.3,
step 3) — scanning a stretch of the container in traversal order, the
first object that is not tombstoned is the one whose reference and lock
can be taken; a tombstoned neighbor's acquisition fails and the traversal
advances again in the same direction, so such entries are skipped. -/
def firstLive (objs : Nat → PSafeObjectState) : List Nat → Option Nat
  | [] => none
  | i :: rest => if (objs i).safelyBeingRemoved then firstLive objs rest else some i

/-- Modelled from the spec: `PSafePtrBase::Next` (declared safecoll.h
line 437; body missing from src).  Spec section 4.3 traversal: exit the
current mode (dereferencing the old target); under the collection mutex
locate the current target's index by identity and scan forward; bind to
the first acquirable neighbor, or become the NULL handle when the index
runs out of range. -/
def PSafePtrBase.Next (st : ListCollState) (p : PSafePtrState) :
    PSafePtrState × ListCollState :=
  match p.currentObject with
  | none => (p, st)
  | some i =>
      let objs1 := exitSafetyModeObjs st.objs i p.lockMode
      let idx := st.items.indexOf i
      match firstLive objs1 (st.items.drop (idx + 1)) with
      | none => ({ currentObject := none, lockMode := p.lockMode }, { st with objs := objs1 })
      | some nid =>
          match enterSafetyModeObjs objs1 nid p.lockMode with
          | some (true, objs2) =>
              ({ currentObject := some nid, lockMode := p.lockMode }, { st with objs := objs2 })
          | some (false, objs2) =>
              ({ currentObject := none, lockMode := p.lockMode }, { st with objs := objs2 })
          | none =>
              ({ currentObject := none, lockMode := p.lockMode }, { st with objs := objs1 })

/-- Modelled from the spec: `PSafePtrBase::Previous` (declared safecoll.h
line 438; body missing from src).  As `Next` but scanning backward; from
index 0 the neighbor index is out of range and the handle becomes NULL. -/
def PSafePtrBase.Previous (st : ListCollState) (p : PSafePtrState) :
    PSafePtrState × ListCollState :=
  match p.currentObject with
  | none => (p, st)
  | some i =>
      let objs1 := exitSafetyModeObjs st.objs i p.lockMode
      let idx := st.items.indexOf i
      match firstLive objs1 (st.items.take idx).reverse with
      | none => ({ currentObject := none, lockMode := p.lockMode }, { st with objs := objs1 })
      | some nid =>
          match enterSafetyModeObjs objs1 nid p.lockMode with
          | some (true, objs2) =>
              ({ currentObject := some nid, lockMode := p.lockMode }, { st with objs := objs2 })
          | some (false, objs2) =>
              ({ currentObject := none, lockMode := p.lockMode }, { st with objs := objs2 })
          | none =>
              ({ currentObject := none, lockMode := p.lockMode }, { st with objs := objs1 })

/-- `PSafePtr::operator++(int)` (safecoll.h lines 594-599): saves
`currentObject`, calls `Next()`, and returns the saved pointer. -/
def PSafePtr.incPost (st : ListCollState) (p : PSafePtrState) :
    Option Nat × (PSafePtrState × ListCollState) :=
  let previous := p.currentObject
  (previous, PSafePtrBase.Next st p)

/-- `PSafePtr::operator++()` (safecoll.h lines 605-609): calls `Next()`
and returns the new `currentObject`. -/
def PSafePtr.incPre (st : ListCollState) (p : PSafePtrState) :
    Option Nat × (PSafePtrState × ListCollState) :=
  let r := PSafePtrBase.Next st p
  (r.1.currentObject, r)

/-- `PSafePtr::operator--(int)` (safecoll.h lines 615-620): saves
`currentObject`, calls `Previous()`, and returns the saved pointer. -/
def PSafePtr.decPost (st : ListCollState) (p : PSafePtrState) :
    Option Nat × (PSafePtrState × ListCollState) :=
  let previous := p.currentObject
  (previous, PSafePtrBase.Previous st p)

/-- `PSafePtr::operator--()` (safecoll.h lines 626-630): calls
`Previous()` and returns the new `currentObject`. -/
def PSafePtr.decPre (st : ListCollState) (p : PSafePtrState) :
    Option Nat × (PSafePtrState × ListCollState) :=
  let r := PSafePtrBase.Previous st p
  (r.1.currentObject, r)

/-- Mutex and handle-construction events of a facade body. -/
inductive SafeCollEvent
  | acquireCollectionMutex
  | containerLookup
  | constructSafePtr
  | releaseCollectionMutex
deriving DecidableEq, BEq, Repr

/-- Embedded from `PSafeList::FindWithLock` (safecoll.h lines 715-721).
The body is `PWaitAndSignal mutex(collectionMutex);` followed by
`return PSafePtr<Base>(*this, mode, collection->GetValuesIndex(value));`.
`PWaitAndSignal` is a scoped guard: its constructor acquires the
collection mutex at function entry and its destructor releases it at
scope exit, which by C++ semantics runs only after the returned
`PSafePtr` — whose construction performs the per-object reference and
lock acquisition — has been built.  Events in execution order: -/
def PSafeList.findWithLockEvents : List SafeCollEvent :=
  [SafeCollEvent.acquireCollectionMutex, SafeCollEvent.containerLookup,
   SafeCollEvent.constructSafePtr, SafeCollEvent.releaseCollectionMutex]

/-- Embedded from `PSafeDictionary::FindWithLock` (safecoll.h
lines 794-800), whose body has the identical shape: scoped guard,
`GetAt(key)` lookup, `PSafePtr` construction inside the return statement,
guard release at scope exit. -/
def PSafeDictionary.findWithLockEvents : List SafeCollEvent :=
  [SafeCollEvent.acquireCollectionMutex, SafeCollEvent.containerLookup,
   SafeCollEvent.constructSafePtr, SafeCollEvent.releaseCollectionMutex]

/-- An empty list collection whose objects are all fresh. -/
def emptyColl : ListCollState :=
  { items := [], toBeRemoved := [], objs := fun _ => PSafeObjectState.initial }

/-- A one-element list collection holding the fresh object 0. -/
def liveColl : ListCollState :=
  { items := [0], toBeRemoved := [], objs := fun _ => PSafeObjectState.initial }

/-- An empty dictionary over Nat keys whose objects are all fresh. -/
def emptyDict : DictCollState Nat :=
  { entries := [], toBeRemoved := [], objs := fun _ => PSafeObjectState.initial }

/-- A dictionary with key 1 bound to object 5; all objects fresh. -/
def dictWithOneEntry : DictCollState Nat :=
  { entries := [(1, 5)], toBeRemoved := [], objs := fun _ => PSafeObjectState.initial }

/-- Claim C2, counterexample: in both `FindWithLock` bodies the returned
handle is constructed strictly before the collection mutex is released —
the scoped guard signals the mutex only at scope exit — so the claim
that the mutex is released before the handle is constructed fails on
both facades. -/
theorem C2_counterexample :
    ¬ (PSafeList.findWithLockEvents.indexOf SafeCollEvent.releaseCollectionMutex <
        PSafeList.findWithLockEvents.indexOf SafeCollEvent.constructSafePtr)
    ∧ ¬ (PSafeDictionary.findWithLockEvents.indexOf SafeCollEvent.releaseCollectionMutex <
        PSafeDictionary.findWithLockEvents.indexOf SafeCollEvent.constructSafePtr) := by
  decide

/-- Claim C2 (amended): in every execution of `PSafeList::FindWithLock`
and `PSafeDictionary::FindWithLock` the collection mutex is acquired
first, the container lookup runs under it, the handle — including its
per-object lock acquisition — is constructed while the mutex is still
held, and the mutex is released last, at function exit. -/
theorem C2_mutex_held_across_construction :
    (PSafeList.findWithLockEvents.indexOf SafeCollEvent.acquireCollectionMutex <
       PSafeList.findWithLockEvents.indexOf SafeCollEvent.containerLookup
     ∧ PSafeList.findWithLockEvents.indexOf SafeCollEvent.containerLookup <
       PSafeList.findWithLockEvents.indexOf SafeCollEvent.constructSafePtr
     ∧ PSafeList.findWithLockEvents.indexOf SafeCollEvent.constructSafePtr <
       PSafeList.findWithLockEvents.indexOf SafeCollEvent.releaseCollectionMutex)
    ∧ (PSafeDictionary.findWithLockEvents.indexOf SafeCollEvent.acquireCollectionMutex <
       PSafeDictionary.findWithLockEvents.indexOf SafeCollEvent.containerLookup
     ∧ PSafeDictionary.findWithLockEvents.indexOf SafeCollEvent.containerLookup <
       PSafeDictionary.findWithLockEvents.indexOf SafeCollEvent.constructSafePtr
     ∧ PSafeDictionary.findWithLockEvents.indexOf SafeCollEvent.constructSafePtr <
       PSafeDictionary.findWithLockEvents.indexOf SafeCollEvent.releaseCollectionMutex) := by
  decide

/-- Claim C3, code bug: `PSafeDictionary::SetAt` stores the object
without referencing it.  On an empty dictionary, `SetAt(1, obj 0)` with
object 0 fresh stores the binding but leaves object 0's reference count
at 0 — the body (safecoll.h 754-760) never calls `SafeReference`, though
the specification (sections 3 and 4.4, invariant C2) has the collection
take its own reference on every stored object.  On a dictionary where
key 1 held object 5, the remaining parts of the claim do hold: object 5
is moved to the pending-deletion list and marked removed and object 0 is
stored — but object 0's reference count again stays 0. -/
theorem C3_setat_missing_reference :
    (DictCollState.GetAt (PSafeDictionary.SetAt emptyDict 1 0) 1 = some 0
      ∧ ((PSafeDictionary.SetAt emptyDict 1 0).objs 0).safeReferenceCount = 0)
    ∧ (DictCollState.GetAt (PSafeDictionary.SetAt dictWithOneEntry 1 0) 1 = some 0
      ∧ (PSafeDictionary.SetAt dictWithOneEntry 1 0).toBeRemoved = [5]
      ∧ ((PSafeDictionary.SetAt dictWithOneEntry 1 0).objs 5).safelyBeingRemoved = true
      ∧ ((PSafeDictionary.SetAt dictWithOneEntry 1 0).objs 0).safeReferenceCount = 0) := by
  decide

/-- Claim C8: absence conditions are results, not errors — a handle
constructed at an index beyond the collection size is the NULL handle
and the collection is untouched; `SafeRemoveAt` at an out-of-range index
returns null and changes nothing; and `PSafeDictionary::RemoveAt` on an
absent key returns false and changes nothing. -/
theorem C8_absence_results :
    (∀ (st : ListCollState) (mode : PSafetyMode) (idx : Nat), st.items.length ≤ idx →
      PSafePtrBase.mkFromIndex st mode idx =
        some ({ currentObject := none, lockMode := mode }, st))
    ∧ (∀ (st : ListCollState) (idx : Nat), st.items.length ≤ idx →
      PSafeCollection.SafeRemoveAt st idx = (none, st))
    ∧ (∀ (κ : Type) [DecidableEq κ] (st : DictCollState κ) (k : κ),
      DictCollState.GetAt st k = none →
      PSafeDictionary.RemoveAt st k = (false, st)) := by
  refine ⟨?_, ?_, ?_⟩
  · intro st mode idx h
    have hnone : st.items[idx]? = none := List.getElem?_eq_none h
    unfold PSafePtrBase.mkFromIndex
    rw [hnone]
    rfl
  · intro st idx h
    have hnone : st.items[idx]? = none := List.getElem?_eq_none h
    unfold PSafeCollection.SafeRemoveAt
    rw [hnone]
  · intro κ _ st k h
    unfold PSafeDictionary.RemoveAt
    rw [h]
    rfl

/-- Witness for C8_absence_results on the concrete empty collection and
empty dictionary. -/
theorem C8_absence_results_witness :
    PSafePtrBase.mkFromIndex emptyColl PSafetyMode.PSafeReadWrite 0 =
      some ({ currentObject := none, lockMode := PSafetyMode.PSafeReadWrite }, emptyColl)
    ∧ PSafeCollection.SafeRemoveAt emptyColl 0 = (none, emptyColl)
    ∧ PSafeDictionary.RemoveAt emptyDict 7 = (false, emptyDict) :=
  ⟨C8_absence_results.1 emptyColl PSafetyMode.PSafeReadWrite 0 (by decide),
   C8_absence_results.2.1 emptyColl 0 (by decide),
   C8_absence_results.2.2 Nat emptyDict 7 (by decide)⟩

/-- Claim C9: every omissible mode argument — of the list and dictionary
`GetWithLock` and `FindWithLock` and of the `PSafePtr` collection
constructor — defaults to `PSafeReadWrite`, a mode distinct from
`PSafeReadOnly` and `PSafeReference`; and a default-mode `GetWithLock`
on a live unlocked object yields a handle in `PSafeReadWrite` mode
holding the exclusive write lock (and a reference) on its target. -/
theorem C9_default_mode :
    PSafeList.GetWithLockDefaultMode = PSafetyMode.PSafeReadWrite
    ∧ PSafeList.FindWithLockDefaultMode = PSafetyMode.PSafeReadWrite
    ∧ PSafeDictionary.GetWithLockDefaultMode = PSafetyMode.PSafeReadWrite
    ∧ PSafeDictionary.FindWithLockDefaultMode = PSafetyMode.PSafeReadWrite
    ∧ PSafePtr.collectionCtorDefaultMode = PSafetyMode.PSafeReadWrite
    ∧ PSafetyMode.PSafeReadWrite ≠ PSafetyMode.PSafeReadOnly
    ∧ PSafetyMode.PSafeReadWrite ≠ PSafetyMode.PSafeReference
    ∧ (PSafeList.GetWithLock liveColl 0 PSafeList.GetWithLockDefaultMode).map
        (fun r => (r.1.lockMode, r.1.currentObject, (r.2.objs 0).safeInUseWriter,
          (r.2.objs 0).safeInUseReaders, (r.2.objs 0).safeReferenceCount)) =
      some (PSafetyMode.PSafeReadWrite, some 0, true, 0, 1) := by
  exact ⟨rfl, rfl, rfl, rfl, rfl, by decide, by decide, by decide⟩

/-- Claim C10: the post-increment operator returns the object the
pointer targeted before advancing and advances exactly as `Next`; the
pre-increment operator returns the object targeted after advancing; the
post- and pre-decrement operators behave symmetrically via `Previous`. -/
theorem C10_increment_semantics (st : ListCollState) (p : PSafePtrState) :
    (PSafePtr.incPost st p).1 = p.currentObject
    ∧ (PSafePtr.incPost st p).2 = PSafePtrBase.Next st p
    ∧ (PSafePtr.incPre st p).1 = (PSafePtrBase.Next st p).1.currentObject
    ∧ (PSafePtr.incPre st p).2 = PSafePtrBase.Next st p
    ∧ (PSafePtr.decPost st p).1 = p.currentObject
    ∧ (PSafePtr.decPost st p).2 = PSafePtrBase.Previous st p
    ∧ (PSafePtr.decPre st p).1 = (PSafePtrBase.Previous st p).1.currentObject
    ∧ (PSafePtr.decPre st p).2 = PSafePtrBase.Previous st p :=
  ⟨rfl, rfl, rfl, rfl, rfl, rfl, rfl, rfl⟩
